import Mathlib

/-!
Shallow embedding of the db1000n packetgen connection layer
(`src/unnamed/part_000`, Go package `packetgen`): the connection factory
`OpenConnection`, the raw transport `rawConn` and the stream transport
`netConn`, together with the external capabilities they consume
(`Packet`, decode/dial/handshake oracles).

Network effects are modelled explicitly: a raw connection records the
datagrams it injected (`sent`), a stream connection records the byte
chunks it wrote, and the open path records which sockets were closed
during construction.
-/

namespace Packetgen

/-- Bytes are modelled as natural numbers; byte-level arithmetic is
irrelevant to this layer, which only moves opaque payloads. -/
abbrev Byte := Nat

/-- Socket identities, used to track which sockets the open path closed. -/
abbrev Socket := Nat

/-- Modelled from the spec: the external `Packet` capability (the packet
implementation of this repository is not under src/). `Serialize(buffer)`
encodes the packet into the supplied reusable buffer, overwriting (not
appending to) any prior content, or fails with an error; a failed attempt
may leave arbitrary leftover bytes in the buffer (`leftover`). `IP()` is
the destination address used for raw delivery. -/
structure Packet where
  serialized : Except String (List Byte)
  leftover : List Byte
  ip : String

/-- Modelled from the spec: serializing a packet into the reusable buffer.
The resulting buffer content never depends on the buffer's prior content
(overwrite semantics); on failure the buffer holds the attempt's leftover
bytes and the error is reported to the caller. -/
def Packet.serializeInto (p : Packet) (_buf : List Byte) : List Byte × Option String :=
  match p.serialized with
  | .ok bytes => (bytes, none)
  | .error e => (p.leftover, some e)

/-- State of `rawConn`: the underlying raw socket, the reusable
serialization buffer, the target descriptor fixed at construction, and
the trace of transmitted datagrams (payload bytes, destination IP) —
the model of `PacketConn.WriteTo` calls. -/
structure RawConn where
  sock : Socket
  buf : List Byte
  target : String
  sent : List (List Byte × String)

/-- Embedding of `rawConn.Write` (part_000 lines 101-107): serialize into
the reused buffer; on failure return count 0 and the error wrapped with
"error serializing packet", performing no transmission; on success
transmit the buffer's bytes to the packet's own IP address. -/
def RawConn.Write (conn : RawConn) (p : Packet) : RawConn × Nat × Option String :=
  match p.serializeInto conn.buf with
  | (buf2, some e) => ({ conn with buf := buf2 }, 0, some ("error serializing packet: " ++ e))
  | (buf2, none) =>
    ({ conn with buf := buf2, sent := conn.sent ++ [(buf2, p.ip)] }, buf2.length, none)

/-- Embedding of `rawConn.Read` (part_000 line 115): always `(0, nil)`,
ignoring the supplied buffer and the connection state. -/
def RawConn.Read (_conn : RawConn) (_buf : List Byte) : Nat × Option String :=
  (0, none)

/-- Embedding of `rawConn.Target` (part_000 line 113). -/
def RawConn.Target (conn : RawConn) : String := conn.target

/-- A sequence of `Write` calls on a raw connection, threading the state. -/
def RawConn.writeAll (conn : RawConn) : List Packet → RawConn
  | [] => conn
  | p :: ps => ((conn.Write p).1).writeAll ps

/-- State of `netConn`: the underlying (possibly TLS-wrapped) socket, the
reusable serialization buffer, the target descriptor fixed at
construction, and the trace of byte chunks written to the stream. -/
structure NetConn where
  sock : Socket
  isTLS : Bool
  buf : List Byte
  target : String
  sent : List (List Byte)

/-- Embedding of `netConn.Write` (part_000 lines 152-158): serialize into
the reused buffer; on failure return count 0 and the wrapped error with
no transmission; on success write the buffer's bytes as one chunk to the
established connection. -/
def NetConn.Write (conn : NetConn) (p : Packet) : NetConn × Nat × Option String :=
  match p.serializeInto conn.buf with
  | (buf2, some e) => ({ conn with buf := buf2 }, 0, some ("error serializing packet: " ++ e))
  | (buf2, none) =>
    ({ conn with buf := buf2, sent := conn.sent ++ [buf2] }, buf2.length, none)

/-- Embedding of `netConn.Read` (part_000 line 166): a pure passthrough of
the underlying connection's read result; the connection's own state
(buffer, target) is not consulted or modified. -/
def NetConn.Read (_conn : NetConn) (underlying : Nat × Option String) : Nat × Option String :=
  underlying

/-- Embedding of `netConn.Target` (part_000 line 164). -/
def NetConn.Target (conn : NetConn) : String := conn.target

/-- Modelled from the spec: proxy parameters (`utils.ProxyParams`, not
under src/) are opaque to this layer; the factory only substitutes a
default (empty) value when they are absent. -/
structure ProxyParams where
  params : String
deriving DecidableEq

/-- The default (empty) proxy parameters, `utils.ProxyParams{}`. -/
def ProxyParams.empty : ProxyParams := ⟨""⟩

/-- Modelled from the spec: `utils.NonNilOrDefault` (not under src/)
returns the pointed-to value when the pointer is non-nil and the supplied
default otherwise. -/
def NonNilOrDefault {α : Type} (x : Option α) (d : α) : α := x.getD d

/-- TLS client configuration is opaque to this layer; only its presence
or absence is inspected (part_000 line 138). -/
abbrev TLSConfig := Unit

/-- Embedding of `rawConnConfig` (part_000 lines 74-77). -/
structure rawConnConfig where
  Name : String
  Address : String

/-- Embedding of `netConnConfig` (part_000 lines 117-123). `Timeout` and
`Proxy` are carried but not consulted by the open path, as in the source. -/
structure netConnConfig where
  Protocol : String
  Address : String
  Timeout : Nat
  Proxy : ProxyParams
  TLSClientConfig : Option TLSConfig

/-- Modelled from the spec: the decode oracle for the opaque `Args`
mapping (`utils.Decode`, not under src/). Decoding the same mapping may
be attempted against either transport shape and independently succeeds
or fails with an error naming the expected fields. -/
structure ConnArgs where
  decodeRaw : Except String rawConnConfig
  decodeNet : Except String netConnConfig

/-- Embedding of `ConnectionConfig` (part_000 lines 39-43): the `Type`
tag, the opaque argument mapping, and optional proxy parameters. -/
structure ConnectionConfig where
  type : String
  Args : ConnArgs
  Proxy : Option ProxyParams

/-- The environment of external effects consumed by the open path: the
raw listen primitive (`net.ListenPacket`), the dial capability resolved
from proxy parameters (`utils.GetProxyFunc`, modelled from the spec as an
opaque function from proxy parameters, protocol and address to a socket
or a dial error), and the TLS client handshake over a dialed socket
(success yields the TLS-wrapped socket's identity). -/
structure NetEnv where
  listenPacket : String → String → Except String Socket
  dial : ProxyParams → String → String → Except String Socket
  handshake : Socket → TLSConfig → Except String Socket

/-- Errors produced by the open path, tagged by the phase that produced
them: configuration (decode failure or unrecognized type), raw listen
failure, dial failure, TLS handshake failure. -/
inductive OpenError where
  | config (msg : String)
  | listen (e : String)
  | dial (e : String)
  | handshake (e : String)
deriving DecidableEq

/-- Embedding of `openRawConn` (part_000 lines 88-99): open a raw packet
listener; on failure return the error verbatim, otherwise a connection
with a fresh empty buffer and target `Name ++ "://" ++ Address`. -/
def openRawConn (env : NetEnv) (c : rawConnConfig) : Option RawConn × Option OpenError :=
  match env.listenPacket c.Name c.Address with
  | .error e => (none, some (.listen e))
  | .ok s =>
    (some { sock := s, buf := [], target := c.Name ++ "://" ++ c.Address, sent := [] }, none)

/-- Result of opening a stream connection: the connection or the error,
plus the sockets closed during construction. -/
structure OpenNetResult where
  conn : Option NetConn
  err : Option OpenError
  closed : List Socket

/-- Embedding of `openNetConn` (part_000 lines 132-150): dial via the
proxy-resolved capability, substituting default proxy parameters when
none were supplied; on dial failure return the error; without TLS, wrap
the dialed socket directly; with TLS, run the client handshake — on
handshake failure close the dialed socket and return the error, on
success the TLS-wrapped socket becomes the live connection. -/
def openNetConn (env : NetEnv) (c : netConnConfig) (proxyParams : Option ProxyParams) :
    OpenNetResult :=
  match env.dial (NonNilOrDefault proxyParams ProxyParams.empty) c.Protocol c.Address with
  | .error e => ⟨none, some (.dial e), []⟩
  | .ok s =>
    match c.TLSClientConfig with
    | none =>
      ⟨some { sock := s, isTLS := false, buf := [],
              target := c.Protocol ++ "://" ++ c.Address, sent := [] }, none, []⟩
    | some t =>
      match env.handshake s t with
      | .error e => ⟨none, some (.handshake e), [s]⟩
      | .ok s2 =>
        ⟨some { sock := s2, isTLS := true, buf := [],
                target := c.Protocol ++ "://" ++ c.Address, sent := [] }, none, []⟩

/-- A non-nil `Connection` interface value: it records which concrete
pointer type it holds and the pointer's value, which may itself be nil
(`none`). Go distinguishes a nil interface from a non-nil interface
wrapping a nil pointer, and converting a typed nil `*rawConn` or
`*netConn` to the `Connection` interface yields the latter. -/
inductive Connection where
  | raw (c : Option RawConn)
  | net (c : Option NetConn)

/-- Result of `OpenConnection`: the Go `(Connection, error)` pair — the
interface component is `none` exactly when the returned interface value
is nil — plus the sockets closed during construction. -/
structure OpenResult where
  conn : Option Connection
  err : Option OpenError
  closed : List Socket

/-- Embedding of `OpenConnection` (part_000 lines 45-64): dispatch on the
`Type` tag; decode the arguments into the matching shape, wrapping decode
failures with "error decoding connection config"; unrecognized tags fail
with "unknown connection type" naming the value. The branches returning a
literal `nil` produce a nil interface (`none`), while
`return openRawConn(cfg)` and `return openNetConn(ctx, cfg, c.Proxy)`
convert the typed `*rawConn`/`*netConn` result to the `Connection`
interface, which yields a non-nil interface value even when the pointer
inside is nil. -/
def OpenConnection (env : NetEnv) (c : ConnectionConfig) : OpenResult :=
  if c.type = "raw" then
    match c.Args.decodeRaw with
    | .error e => ⟨none, some (.config ("error decoding connection config: " ++ e)), []⟩
    | .ok cfg =>
      let r := openRawConn env cfg
      ⟨some (Connection.raw r.1), r.2, []⟩
  else if c.type = "net" then
    match c.Args.decodeNet with
    | .error e => ⟨none, some (.config ("error decoding connection config: " ++ e)), []⟩
    | .ok cfg =>
      let r := openNetConn env cfg c.Proxy
      ⟨some (Connection.net r.conn), r.err, r.closed⟩
  else
    ⟨none, some (.config ("unknown connection type: " ++ c.type)), []⟩

/-- A successful serialization makes `rawConn.Write` transmit exactly the
serialized bytes to the packet's IP and report their count. -/
theorem RawConn.rawWrite_ok {p : Packet} {b : List Byte} (h : p.serialized = .ok b)
    (conn : RawConn) :
    conn.Write p =
      ({ conn with buf := b, sent := conn.sent ++ [(b, p.ip)] }, b.length, none) := by
  simp [RawConn.Write, Packet.serializeInto, h]

/-- A failed serialization makes `rawConn.Write` return count 0 and the
wrapped error, leaving leftover bytes in the buffer but transmitting
nothing. -/
theorem RawConn.rawWrite_err {p : Packet} {e : String} (h : p.serialized = .error e)
    (conn : RawConn) :
    conn.Write p =
      ({ conn with buf := p.leftover }, 0, some ("error serializing packet: " ++ e)) := by
  simp [RawConn.Write, Packet.serializeInto, h]

/-- `rawConn.Write` never changes the target descriptor. -/
theorem RawConn.rawWrite_target (conn : RawConn) (p : Packet) :
    (conn.Write p).1.target = conn.target := by
  cases h : p.serialized
  · rw [RawConn.rawWrite_err h]
  · rw [RawConn.rawWrite_ok h]

/-- A sequence of `rawConn.Write` calls never changes the target. -/
theorem RawConn.rawWriteAll_target (ps : List Packet) (conn : RawConn) :
    (conn.writeAll ps).target = conn.target := by
  induction ps generalizing conn with
  | nil => rfl
  | cons p ps ih => rw [RawConn.writeAll, ih, RawConn.rawWrite_target]

/-- A successful serialization makes `netConn.Write` write exactly the
serialized bytes as one chunk and report their count. -/
theorem NetConn.netWrite_ok {p : Packet} {b : List Byte} (h : p.serialized = .ok b)
    (conn : NetConn) :
    conn.Write p = ({ conn with buf := b, sent := conn.sent ++ [b] }, b.length, none) := by
  simp [NetConn.Write, Packet.serializeInto, h]

/-- A failed serialization makes `netConn.Write` return count 0 and the
wrapped error, writing nothing to the stream. -/
theorem NetConn.netWrite_err {p : Packet} {e : String} (h : p.serialized = .error e)
    (conn : NetConn) :
    conn.Write p =
      ({ conn with buf := p.leftover }, 0, some ("error serializing packet: " ++ e)) := by
  simp [NetConn.Write, Packet.serializeInto, h]

/-- `netConn.Write` never changes the target descriptor. -/
theorem NetConn.netWrite_target (conn : NetConn) (p : Packet) :
    (conn.Write p).1.target = conn.target := by
  cases h : p.serialized
  · rw [NetConn.netWrite_err h]
  · rw [NetConn.netWrite_ok h]

/-- The datagrams a successfully serialized packet contributes to the raw
transmission trace. -/
def Packet.sentRaw (p : Packet) : Option (List Byte × String) :=
  match p.serialized with
  | .ok b => some (b, p.ip)
  | .error _ => none

/-- C1: Buffer-reuse invariant. Over any sequence of `Write` calls on the
same raw connection, the transmitted datagrams are exactly the
`Serialize` outputs of the successfully serialized packets, each paired
with that packet's own IP; a packet whose serialization fails transmits
nothing, the connection remains usable, and the next `Write` transmits
only its own packet's bytes — never leftover bytes from an earlier packet
or from the failed attempt. -/
theorem rawConn_write_transmits_exactly_serialized (conn : RawConn) (ps : List Packet) :
    (conn.writeAll ps).sent = conn.sent ++ ps.filterMap Packet.sentRaw := by
  induction ps generalizing conn with
  | nil => simp [RawConn.writeAll]
  | cons p ps ih =>
    rw [RawConn.writeAll, ih, List.filterMap_cons]
    cases h : p.serialized with
    | error e => rw [RawConn.rawWrite_err h]; simp [Packet.sentRaw, h]
    | ok b => rw [RawConn.rawWrite_ok h]; simp [Packet.sentRaw, h]

/-- C2: `Read` on a raw connection always returns `(0, nil)`, whatever
sequence of `Write` calls preceded it and whatever buffer is supplied. -/
theorem rawConn_read_always_zero_nil (conn : RawConn) (ps : List Packet) (buf : List Byte) :
    ((conn.writeAll ps)).Read buf = (0, none) := rfl

/-- C4: on both transports, a `Write` whose serialization fails returns
byte count 0 and the error wrapped with "error serializing packet",
performs no network I/O (the transmission traces are unchanged), keeps
the target intact, and leaves the connection valid: a subsequent `Write`
of a successfully serializing packet transmits exactly that packet's
bytes. -/
theorem write_serialize_failure_no_io (crw : RawConn) (cnet : NetConn) (p q : Packet)
    (e : String) (b : List Byte)
    (hp : p.serialized = .error e) (hq : q.serialized = .ok b) :
    (crw.Write p).2 = (0, some ("error serializing packet: " ++ e)) ∧
    ((crw.Write p).1).sent = crw.sent ∧
    ((crw.Write p).1).target = crw.target ∧
    (cnet.Write p).2 = (0, some ("error serializing packet: " ++ e)) ∧
    ((cnet.Write p).1).sent = cnet.sent ∧
    ((cnet.Write p).1).target = cnet.target ∧
    (((crw.Write p).1).Write q).1.sent = crw.sent ++ [(b, q.ip)] ∧
    (((cnet.Write p).1).Write q).1.sent = cnet.sent ++ [b] := by
  rw [RawConn.rawWrite_err hp, NetConn.netWrite_err hp, RawConn.rawWrite_ok hq, NetConn.netWrite_ok hq]
  exact ⟨rfl, rfl, rfl, rfl, rfl, rfl, rfl, rfl⟩

/-- Concrete packet whose serialization fails, for witnesses. -/
def pFail : Packet := ⟨.error "boom", [9, 9], "10.0.0.1"⟩

/-- Concrete packet whose serialization succeeds, for witnesses. -/
def pOk : Packet := ⟨.ok [1, 2, 3], [], "10.0.0.2"⟩

/-- Concrete raw connection state, for witnesses. -/
def wRaw : RawConn := ⟨0, [7], "ip6:ip://::", [([5], "10.0.0.9")]⟩

/-- Concrete stream connection state, for witnesses. -/
def wNet : NetConn := ⟨0, false, [7], "tcp://example:80", [[5]]⟩

/-- Witness for C4 at concrete connections and packets. -/
theorem write_serialize_failure_no_io_witness :
    (wRaw.Write pFail).2 = (0, some ("error serializing packet: " ++ "boom")) ∧
    ((wRaw.Write pFail).1).sent = wRaw.sent ∧
    ((wRaw.Write pFail).1).target = wRaw.target ∧
    (wNet.Write pFail).2 = (0, some ("error serializing packet: " ++ "boom")) ∧
    ((wNet.Write pFail).1).sent = wNet.sent ∧
    ((wNet.Write pFail).1).target = wNet.target ∧
    (((wRaw.Write pFail).1).Write pOk).1.sent = wRaw.sent ++ [([1, 2, 3], pOk.ip)] ∧
    (((wNet.Write pFail).1).Write pOk).1.sent = wNet.sent ++ [[1, 2, 3]] :=
  write_serialize_failure_no_io wRaw wNet pFail pOk "boom" [1, 2, 3] rfl rfl

/-- C3: an unrecognized `Type` tag makes `OpenConnection` fail with a
configuration error whose message names the unrecognized value, yielding
no connection, closing nothing, and never falling back to a silent
default transport. -/
theorem openConnection_unknown_type (env : NetEnv) (c : ConnectionConfig)
    (h1 : c.type ≠ "raw") (h2 : c.type ≠ "net") :
    OpenConnection env c =
      ⟨none, some (.config ("unknown connection type: " ++ c.type)), []⟩ := by
  unfold OpenConnection
  rw [if_neg h1, if_neg h2]

/-- Concrete environment where every external call succeeds, for
witnesses. -/
def wEnv : NetEnv := ⟨fun _ _ => .ok 1, fun _ _ _ => .ok 2, fun _ _ => .ok 3⟩

/-- Concrete argument mapping that decodes into neither shape, for
witnesses. -/
def wArgs : ConnArgs := ⟨.error "bad raw shape", .error "bad net shape"⟩

/-- Witness for C3 at the concrete unrecognized tag "tcp6". -/
theorem openConnection_unknown_type_witness :
    OpenConnection wEnv ⟨"tcp6", wArgs, none⟩ =
      ⟨none, some (.config ("unknown connection type: " ++ "tcp6")), []⟩ :=
  openConnection_unknown_type wEnv ⟨"tcp6", wArgs, none⟩ (by decide) (by decide)

/-- C5: a TLS-configured stream open whose handshake fails produces no
connection, closes the dialed socket exactly once (the `closed` trace is
precisely `[s]`), and returns a handshake-phase error that is distinct
from every dial-phase error. -/
theorem openNetConn_handshake_failure_cleanup (env : NetEnv) (c : netConnConfig)
    (pp : Option ProxyParams) (t : TLSConfig) (s : Socket) (e : String)
    (ht : c.TLSClientConfig = some t)
    (hd : env.dial (NonNilOrDefault pp ProxyParams.empty) c.Protocol c.Address = .ok s)
    (hh : env.handshake s t = .error e) :
    (openNetConn env c pp).conn = none ∧
    (openNetConn env c pp).err = some (.handshake e) ∧
    (openNetConn env c pp).closed = [s] ∧
    ∀ e2, OpenError.handshake e ≠ OpenError.dial e2 := by
  simp [openNetConn, hd, ht, hh]

/-- Concrete environment whose dial succeeds and whose TLS handshake
fails, for witnesses. -/
def wEnvHS : NetEnv := ⟨fun _ _ => .ok 1, fun _ _ _ => .ok 2, fun _ _ => .error "tls alert"⟩

/-- Concrete TLS-configured stream config, for witnesses. -/
def wNetCfgTLS : netConnConfig := ⟨"tcp", "example:443", 0, ProxyParams.empty, some ()⟩

/-- Witness for C5 at a concrete environment and configuration. -/
theorem openNetConn_handshake_failure_cleanup_witness :
    (openNetConn wEnvHS wNetCfgTLS none).conn = none ∧
    (openNetConn wEnvHS wNetCfgTLS none).err = some (.handshake "tls alert") ∧
    (openNetConn wEnvHS wNetCfgTLS none).closed = [2] ∧
    ∀ e2, OpenError.handshake "tls alert" ≠ OpenError.dial e2 :=
  openNetConn_handshake_failure_cleanup wEnvHS wNetCfgTLS none () 2 "tls alert" rfl rfl rfl

/-- C6: on a stream connection opened without TLS, a `Write` whose
serialization succeeds with bytes `b` puts exactly `b` on the wire —
the fresh connection's transmission trace after the write is precisely
`[b]`, with no extra framing — and reports `(b.length, nil)`. -/
theorem netConn_write_exact_bytes (env : NetEnv) (c : netConnConfig)
    (pp : Option ProxyParams) (s : Socket) (p : Packet) (b : List Byte)
    (htls : c.TLSClientConfig = none)
    (hd : env.dial (NonNilOrDefault pp ProxyParams.empty) c.Protocol c.Address = .ok s)
    (h : p.serialized = .ok b) :
    ∃ conn, (openNetConn env c pp).conn = some conn ∧ conn.sent = [] ∧
      ((conn.Write p).1).sent = [b] ∧ (conn.Write p).2 = (b.length, none) := by
  refine ⟨{ sock := s, isTLS := false, buf := [],
            target := c.Protocol ++ "://" ++ c.Address, sent := [] }, ?_, rfl, ?_, ?_⟩
  · simp [openNetConn, hd, htls]
  · rw [NetConn.netWrite_ok h]; rfl
  · rw [NetConn.netWrite_ok h]

/-- Concrete plain (no TLS) stream config, for witnesses. -/
def wNetCfgPlain : netConnConfig := ⟨"tcp", "example:80", 0, ProxyParams.empty, none⟩

/-- Witness for C6 at a concrete environment, configuration and packet. -/
theorem netConn_write_exact_bytes_witness :
    ∃ conn, (openNetConn wEnv wNetCfgPlain none).conn = some conn ∧ conn.sent = [] ∧
      ((conn.Write pOk).1).sent = [[1, 2, 3]] ∧
      (conn.Write pOk).2 = (([1, 2, 3] : List Byte).length, none) :=
  netConn_write_exact_bytes wEnv wNetCfgPlain none 2 pOk [1, 2, 3] rfl rfl rfl

/-- C7: every connection produced by the open path carries the fixed
target descriptor `protocol://address` computed at construction — the raw
transport's `Name`/`Address`, the stream transport's
`Protocol`/`Address` — and no `Write` call (whatever its per-packet
destination or outcome) or sequence of them changes it; `Read` takes no
connection state apart and returns no modified connection, so it cannot
change the target either. -/
theorem target_fixed_at_construction (env : NetEnv) (rc : rawConnConfig) (nc : netConnConfig)
    (pp : Option ProxyParams) (r : RawConn) (m : NetConn) (p : Packet)
    (hr : (openRawConn env rc).1 = some r)
    (hn : (openNetConn env nc pp).conn = some m) :
    r.Target = rc.Name ++ "://" ++ rc.Address ∧
    m.Target = nc.Protocol ++ "://" ++ nc.Address ∧
    ((r.Write p).1).Target = r.Target ∧
    ((m.Write p).1).Target = m.Target ∧
    ∀ ps, (r.writeAll ps).Target = r.Target := by
  refine ⟨?_, ?_, RawConn.rawWrite_target r p, NetConn.netWrite_target m p,
    fun ps => RawConn.rawWriteAll_target ps r⟩
  · cases hl : env.listenPacket rc.Name rc.Address with
    | error e => simp [openRawConn, hl] at hr
    | ok s =>
      simp [openRawConn, hl] at hr
      subst hr
      rfl
  · cases hd : env.dial (NonNilOrDefault pp ProxyParams.empty) nc.Protocol nc.Address with
    | error e => simp [openNetConn, hd] at hn
    | ok s =>
      cases ht : nc.TLSClientConfig with
      | none =>
        simp [openNetConn, hd, ht] at hn
        subst hn
        rfl
      | some t =>
        cases hh : env.handshake s t with
        | error e => simp [openNetConn, hd, ht, hh] at hn
        | ok s2 =>
          simp [openNetConn, hd, ht, hh] at hn
          subst hn
          rfl

/-- Concrete raw config, for witnesses. -/
def wRawCfg : rawConnConfig := ⟨"ip6:ip", "::"⟩

/-- Witness for C7 at concrete configurations and environment. -/
theorem target_fixed_at_construction_witness :
    ∃ r m, (openRawConn wEnv wRawCfg).1 = some r ∧
      (openNetConn wEnv wNetCfgPlain none).conn = some m ∧
      r.Target = "ip6:ip" ++ "://" ++ "::" ∧
      m.Target = "tcp" ++ "://" ++ "example:80" ∧
      ((r.Write pOk).1).Target = r.Target ∧
      ((m.Write pOk).1).Target = m.Target ∧
      ∀ ps, (r.writeAll ps).Target = r.Target := by
  refine ⟨_, _, rfl, rfl, ?_⟩
  have h := target_fixed_at_construction wEnv wRawCfg wNetCfgPlain none
    ⟨1, [], "ip6:ip" ++ "://" ++ "::", []⟩
    ⟨2, false, [], "tcp" ++ "://" ++ "example:80", []⟩ pOk rfl rfl
  exact ⟨h.1, h.2.1, h.2.2.1, h.2.2.2.1, h.2.2.2.2⟩

/-- C8: every configuration with a recognized `Type` tag whose arguments
fail to decode into that tag's own shape — whatever decoding into the
other tag's shape would do — makes `OpenConnection` fail with a
configuration error that wraps the underlying decode failure (whose text
names the expected field/shape), yielding no connection. -/
theorem openConnection_decode_failure (env : NetEnv) (c : ConnectionConfig) (e : String)
    (h : (c.type = "raw" ∧ c.Args.decodeRaw = .error e) ∨
         (c.type = "net" ∧ c.Args.decodeNet = .error e)) :
    OpenConnection env c =
      ⟨none, some (.config ("error decoding connection config: " ++ e)), []⟩ := by
  rcases h with ⟨ht, hd⟩ | ⟨ht, hd⟩
  · simp [OpenConnection, ht, hd]
  · simp [OpenConnection, ht, hd]

/-- Concrete argument mapping that fails the raw shape yet decodes fine
into the net shape, for witnesses: only the tag's own shape matters. -/
def wArgsRawBad : ConnArgs := ⟨.error "missing Name field", .ok wNetCfgPlain⟩

/-- Witness for C8 at a concrete `"raw"` config whose arguments fail only
the raw shape (they decode into the net shape without error). -/
theorem openConnection_decode_failure_witness :
    OpenConnection wEnv ⟨"raw", wArgsRawBad, none⟩ =
      ⟨none, some (.config ("error decoding connection config: " ++ "missing Name field")), []⟩ :=
  openConnection_decode_failure wEnv ⟨"raw", wArgsRawBad, none⟩ "missing Name field"
    (Or.inl ⟨rfl, rfl⟩)

/-- Concrete environment whose raw listen primitive fails, for the C9
evaluation. -/
def wEnvListenFail : NetEnv :=
  ⟨fun _ _ => .error "permission denied", fun _ _ _ => .ok 2, fun _ _ => .ok 3⟩

/-- Concrete argument mapping that decodes into the raw shape, for the C9
evaluation. -/
def wArgsRawOk : ConnArgs := ⟨.ok wRawCfg, .error "bad net shape"⟩

/-- C9 (code bug): on the listen failure path, `return openRawConn(cfg)`
converts the typed nil `*rawConn` to the `Connection` interface, so
`OpenConnection` hands the caller a NON-nil interface value (wrapping a
nil pointer) together with the non-nil error — contradicting the claim
that the returned `Connection` is nil whenever the error is non-nil. The
dial and handshake failure paths of `return openNetConn(...)` behave the
same way; only the decode-failure and unknown-type branches return a
literal `nil` and hence a truly nil interface. -/
theorem openConnection_listen_failure_typed_nil_conn :
    (OpenConnection wEnvListenFail ⟨"raw", wArgsRawOk, none⟩).err =
      some (.listen "permission denied") ∧
    (OpenConnection wEnvListenFail ⟨"raw", wArgsRawOk, none⟩).conn =
      some (Connection.raw none) ∧
    (OpenConnection wEnvListenFail ⟨"raw", wArgsRawOk, none⟩).conn ≠ none := by
  refine ⟨rfl, rfl, ?_⟩
  rw [show (OpenConnection wEnvListenFail ⟨"raw", wArgsRawOk, none⟩).conn =
      some (Connection.raw none) from rfl]
  simp

/-- C10: opening a stream connection with absent proxy parameters is a
supported input: it never fails on their account, because the open path
substitutes the default (empty) proxy parameters before resolving the
dial capability, behaving exactly as if the default had been supplied
explicitly. -/
theorem openConnection_nil_proxy_defaults (env : NetEnv) (a : ConnArgs) :
    OpenConnection env ⟨"net", a, none⟩ =
      OpenConnection env ⟨"net", a, some ProxyParams.empty⟩ := rfl

end Packetgen
